import Mathlib

/-!
Verification development for the OCA.py pipeline (oca.py).

The pipeline tabulates per-word OCR confidence tokens into per-page grids,
derives descriptive statistics, renders warming-stripe figures, moves them
into an images directory (with a blank fallback for empty pages), and
resizes every page image to a fixed 210x298 resolution.

The definitions below are a shallow embedding of the relevant parts of
oca.py.  Machine floats are modelled as rationals (all confidence tokens
are short decimal literals, which parse exactly); the NaN / missing
sentinel is modelled as `Option.none`.
-/

deriving instance DecidableEq for Except

namespace Ocapy

/-! ### Token parsing (the cleanup loop, oca.py lines 219-229)

The cleanup loop assigns `pages_df_list[index]` three times, but each
right-hand side is applied to `item`, the ORIGINAL DataFrame produced by
`pd.DataFrame(pages_wc[i])`.  Hence the `fillna` and `replace("1.", "1.0")`
results are discarded, and the surviving transformation is exactly
`item.astype(float)` applied to the raw padded token grid:
  - a padding cell (Python `None`) becomes NaN,
  - a numeric string is parsed by the float() grammar (which accepts "1."),
  - any other string (including the literal "None") raises a fatal
    ValueError for that file.
-/

/-- Numeric value of a list of decimal digit characters (most significant
first); used by the float() model. -/
def digitsVal (cs : List Char) : Nat :=
  cs.foldl (fun n c => 10 * n + (c.toNat - 48)) 0

/-- Parse an unsigned decimal literal (`digits`, `digits.`, `.digits`, or
`digits.digits`) as an exact rational; `none` on any other string.  This is
Python float() restricted to plain decimal literals, the only numeric forms
occurring as ALTO WC tokens. -/
def parseUnsigned (cs : List Char) : Option ℚ :=
  let intPart := cs.takeWhile (fun c => c != '.')
  match cs.dropWhile (fun c => c != '.') with
  | [] =>
      if !intPart.isEmpty && intPart.all Char.isDigit then
        some (digitsVal intPart : ℚ)
      else
        none
  | _ :: frac =>
      if (!intPart.isEmpty || !frac.isEmpty) && intPart.all Char.isDigit
          && frac.all Char.isDigit then
        some ((digitsVal intPart : ℚ) + (digitsVal frac : ℚ) / (10 ^ frac.length))
      else
        none

/-- Python `float(s)` on a WC token string: optional sign followed by an
unsigned decimal literal; `none` when float() would raise ValueError. -/
def pyFloat (s : String) : Option ℚ :=
  match s.toList with
  | '-' :: rest => (parseUnsigned rest).map (fun q => -q)
  | '+' :: rest => parseUnsigned rest
  | cs => parseUnsigned cs

/-- One cell of `item.astype(float)`: a padding cell (`None`) becomes NaN
(modelled `none`); a string cell must parse as a float, otherwise the
conversion raises (modelled `Except.error` carrying the offending token). -/
def parseCell : Option String → Except String (Option ℚ)
  | none => .ok none
  | some s =>
      match pyFloat s with
      | some q => .ok (some q)
      | none => .error s

/-- `pd.DataFrame(pages_wc[i])`: right-pad every line of the page to the
maximum line length with missing cells. -/
def padPage (page : List (List String)) : List (List (Option String)) :=
  let w := (page.map List.length).foldr max 0
  page.map (fun row => row.map some ++ List.replicate (w - row.length) none)

/-- `astype(float)` over one padded row. -/
def cleanRow : List (Option String) → Except String (List (Option ℚ))
  | [] => .ok []
  | c :: rest =>
      match parseCell c with
      | .error e => .error e
      | .ok v =>
          match cleanRow rest with
          | .error e => .error e
          | .ok vs => .ok (v :: vs)

/-- `astype(float)` over all padded rows of a page. -/
def cleanRows : List (List (Option String)) → Except String (List (List (Option ℚ)))
  | [] => .ok []
  | r :: rest =>
      match cleanRow r with
      | .error e => .error e
      | .ok o =>
          match cleanRows rest with
          | .error e => .error e
          | .ok os => .ok (o :: os)

/-- The whole tabulation step for one page: build the padded DataFrame and
convert it to floats (the only surviving assignment of the cleanup loop). -/
def cleanPage (page : List (List String)) : Except String (List (List (Option ℚ))) :=
  cleanRows (padPage page)

/-! ### Page statistics (oca.py lines 263-272)

`stack()` flattens the page row-major and drops NaN (its default); the
explicit `stack.dropna()` call on the next line discards its result, which
is harmless because the NaNs are already gone.  `describe()` then yields
count / mean / std / min / 25% / 50% / 75% / max, where on an empty input
count is 0.0 and all other fields are NaN, and std is NaN whenever fewer
than two values are present (pandas uses the ddof=1 sample std). -/

/-- `item.stack()`: row-major flatten with NaN dropped. -/
def stackDrop (grid : List (List (Option ℚ))) : List ℚ :=
  grid.flatten.filterMap id

/-- Insert into a sorted list (ascending). -/
def insertQ (x : ℚ) : List ℚ → List ℚ
  | [] => [x]
  | y :: ys => if x ≤ y then x :: y :: ys else y :: insertQ x ys

/-- Insertion sort (ascending), used for the percentile computation. -/
def sortQ : List ℚ → List ℚ
  | [] => []
  | x :: xs => insertQ x (sortQ xs)

/-- Linear-interpolation percentile on a sorted nonempty list, as computed
by pandas describe: position h = p*(n-1), result x[⌊h⌋] + (h-⌊h⌋)*(x[⌊h⌋+1]-x[⌊h⌋]). -/
def percentileAt (s : List ℚ) (p : ℚ) : ℚ :=
  let n := s.length
  let h : ℚ := p * ((n : ℚ) - 1)
  let f : ℕ := (⌊h⌋).toNat
  let lo := s.getD f 0
  let hi := s.getD (f + 1) lo
  lo + (h - (f : ℚ)) * (hi - lo)

/-- The describe() output for one page.  Every field is `Option ℚ` with
`none` standing for NaN.  `stdSq` is the SQUARE of pandas' std (the ddof=1
sample variance): the square keeps the value inside ℚ, and it is `none`
exactly when pandas' std is NaN, so all missingness claims transfer. -/
structure PageStats where
  count : Option ℚ
  mean : Option ℚ
  stdSq : Option ℚ
  minV : Option ℚ
  q25 : Option ℚ
  q50 : Option ℚ
  q75 : Option ℚ
  maxV : Option ℚ
deriving DecidableEq

/-- `Series.describe()` on the stacked page values: count is always a
number (0.0 on an empty series); mean/min/quartiles/max are NaN on an
empty series; std is NaN unless at least two values are present. -/
def describeQ (xs : List ℚ) : PageStats :=
  let n := xs.length
  let s := sortQ xs
  let mu : ℚ := xs.sum / (n : ℚ)
  { count := some (n : ℚ)
    mean := if n = 0 then none else some mu
    stdSq := if n ≤ 1 then none else
      some ((xs.map (fun x => (x - mu) ^ 2)).sum / ((n : ℚ) - 1))
    minV := if n = 0 then none else some (s.getD 0 0)
    q25 := if n = 0 then none else some (percentileAt s (1/4))
    q50 := if n = 0 then none else some (percentileAt s (1/2))
    q75 := if n = 0 then none else some (percentileAt s (3/4))
    maxV := if n = 0 then none else some (s.getD (n - 1) 0) }

/-- Statistics of one raw page: tabulate, stack and describe. -/
def pageStatsOf (page : List (List String)) : Except String PageStats :=
  match cleanPage page with
  | .error e => .error e
  | .ok grid => .ok (describeQ (stackDrop grid))

/-! ### Stripe figures (oca.py lines 319-345 and 369-395)

The document strip and every line strip are built by the same (duplicated)
code: `last_item` is the length of the series after `dropna()`, the
`PatchCollection` holds one unit `Rectangle((y, 0), 1, 1)` for each
`y in range(0, last_item + 1)` - that is `last_item + 1` rectangles - the
collection's color array is the `dropna()` series itself, and the x-axis is
limited to `[0, last_item + 1]`. -/

/-- `Series.dropna()`: the non-missing values, in order. -/
def dropna (l : List (Option ℚ)) : List ℚ :=
  l.filterMap id

/-- A saved stripe figure: number of unit rectangles in the
`PatchCollection`, the color array handed to `set_array`, and the integer
upper x-limit handed to `set_xlim`. -/
structure StripFig where
  nRects : Nat
  values : List ℚ
  xmax : Nat
deriving DecidableEq

/-- Build one stripe figure from a series with missing entries, exactly as
both duplicated code blocks do: drop NaN, then one rectangle for each
`y in range(0, last_item + 1)`. -/
def stripeFig (vals : List (Option ℚ)) : StripFig :=
  ⟨(dropna vals).length + 1, dropna vals, (dropna vals).length + 1⟩

/-- The document-level strip (oca.py lines 319-345): the line-strip
procedure applied to the per-page mean series
`pages_df_list_report_df['mean']`. -/
def documentStrip (pageMeans : List (Option ℚ)) : StripFig :=
  stripeFig pageMeans

/-! ### Per-page composite files and the move / blank fallback
(oca.py lines 369-421, 430-435)

For each page the loop saves the first line's figure to `temp/<i>.png` and
then repeatedly concatenates each further line's figure below it with
`get_concat_v`.  Afterwards, if `temp/<i>.png` does not exist the blank
placeholder `ocapy/blank.png` is copied to `images/<i>.png`; otherwise
`temp/<i>.png` is moved there.  Finally every file in the images directory
is resized to 210x298.  Images are modelled by their provenance; the
pixel-level content of matplotlib's rasterization is external to the
repository. -/

/-- A file in the temp / images directories, by provenance. -/
inductive ImgFile where
  | strip (fig : StripFig)
  | concatV (top bottom : ImgFile)
  | blank
  | resized (w h : Nat) (src : ImgFile)
deriving DecidableEq

/-- Width in pixels: a stripe figure is saved from a `figsize=(10, 1)`
figure at the default 100 dpi; `get_concat_v` uses the top image's width;
the blank placeholder is, modelled from the spec, of the correct final
resolution (210x298). -/
def ImgFile.width : ImgFile → Nat
  | .strip _ => 1000
  | .concatV top _ => top.width
  | .blank => 210
  | .resized w _ _ => w

/-- Height in pixels (`get_concat_v` stacks the two heights). -/
def ImgFile.height : ImgFile → Nat
  | .strip _ => 100
  | .concatV top bottom => top.height + bottom.height
  | .blank => 298
  | .resized _ h _ => h

/-- The figure saved for one text line of a page. -/
def lineFig (line : List (Option ℚ)) : ImgFile :=
  .strip (stripeFig line)

/-- Content of `temp/<i>.png` written by the inner line loop on a clean
temp slot: `none` when the page has zero lines (the loop body never runs),
otherwise the vertical concatenation of all line figures, first line on
top. -/
def compositeOf : List (List (Option ℚ)) → Option ImgFile
  | [] => none
  | l :: rest => some (rest.foldl (fun acc ln => .concatV acc (lineFig ln)) (lineFig l))

/-- Content of `temp/<i>.png` after the line loop, given what was left in
that slot before the run: a page with at least one line overwrites the
slot with its composite; an empty page leaves the slot untouched. -/
def tempAfter (leftover : Option ImgFile) (page : List (List (Option ℚ))) : Option ImgFile :=
  match compositeOf page with
  | some c => some c
  | none => leftover

/-- The move / fallback step (oca.py lines 409-421): if `temp/<i>.png` is
absent, copy the blank placeholder to `images/<i>.png` (flag `true`);
otherwise move the temp file there (flag `false`).  The Boolean records
whether the blank-fallback branch was taken. -/
def moveResult (leftover : Option ImgFile) (page : List (List (Option ℚ))) :
    Bool × ImgFile :=
  match tempAfter leftover page with
  | none => (true, ImgFile.blank)
  | some f => (false, f)

/-- The resize pass (oca.py lines 430-435): every page image in the images
directory is resized to 210x298. -/
def resizePass (f : ImgFile) : ImgFile :=
  .resized 210 298 f

/-- `images/<i>.png` after the full render-move-resize pipeline for page
`i`, given the stale temp content for that slot. -/
def finalPageImage (leftover : Option ImgFile) (page : List (List (Option ℚ))) : ImgFile :=
  resizePass (moveResult leftover page).2

/-! ### Pixel-level box resampling (oca.py lines 430-435)

Modelled from the spec: `Image.resize((w, h), resample=Image.BOX)` is
PIL's area-averaging (box) resampling, external to the repository.  Each
destination pixel averages the source pixels its back-projected box
overlaps, weighted by overlap area, with the channel value rounded to the
nearest integer and clamped to [0, 255]. -/

/-- A raster image: dimensions and one channel value per coordinate. -/
structure Image where
  width : Nat
  height : Nat
  pix : Nat → Nat → Nat

/-- Pixel-identical images: equal dimensions and equal channel values at
every coordinate inside them. -/
def imgEq (a b : Image) : Prop :=
  a.width = b.width ∧ a.height = b.height ∧
    ∀ x y, x < a.width → y < a.height → a.pix x y = b.pix x y

/-- Length of the overlap of destination cell `i`'s back-projected
interval with source cell `k`, for a resize from `src` cells to `dst`
cells along one axis. -/
def overlap (src dst i k : Nat) : ℚ :=
  max 0 (min (((i : ℚ) + 1) * (src : ℚ) / (dst : ℚ)) ((k : ℚ) + 1) -
    max ((i : ℚ) * (src : ℚ) / (dst : ℚ)) (k : ℚ))

/-- Round to the nearest integer (half up). -/
def qround (q : ℚ) : ℤ :=
  ⌊q + 1 / 2⌋

/-- Clamp a channel value to [0, 255]. -/
def clamp255 (z : ℤ) : Nat :=
  (min 255 (max 0 z)).toNat

/-- Area-averaging (box) resampling of `img` to `w` by `h`. -/
def boxResize (img : Image) (w h : Nat) : Image :=
  ⟨w, h, fun i j =>
    clamp255 (qround (((w : ℚ) * (h : ℚ) / ((img.width : ℚ) * (img.height : ℚ))) *
      ∑ k ∈ Finset.range img.width, ∑ l ∈ Finset.range img.height,
        overlap img.width w i k * overlap img.height h j l * (img.pix k l : ℚ)))⟩

/-! ### The fetcher (oca.py lines 71-99)

`download_file` opens (creates or truncates) the destination file BEFORE
issuing the request; a non-success response raises out of
`raise_for_status` with the empty file left on disk.
`download_if_not_exists` skips the download - touching neither the
filesystem nor the network - whenever the path already exists.  The
filesystem is an association list from paths to byte contents, and the
network is a parameter: the response the next request would produce. -/

/-- What one HTTP GET would yield: a transport error or the content
blocks. -/
def Resp : Type :=
  Except Unit (List (List Nat))

/-- `download_file`: create/truncate the file, then issue the request;
propagate a transport error, otherwise stream the blocks to the file.
Returns the filesystem and the outcome. -/
def download_file (fs : List (String × List Nat)) (filename : String) (resp : Resp) :
    List (String × List Nat) × Except Unit Unit :=
  let fs1 := (filename, []) :: fs
  match resp with
  | .error e => (fs1, .error e)
  | .ok blocks => ((filename, blocks.flatten) :: fs1, .ok ())

/-- Outcome of `download_if_not_exists`: resulting filesystem, result, and
whether the network was touched. -/
structure DLOutcome where
  fs : List (String × List Nat)
  res : Except Unit Unit
  usedNetwork : Bool

/-- `download_if_not_exists`: if the file exists, report the local copy and
do nothing; otherwise download (directory creation is immaterial here). -/
def download_if_not_exists (fs : List (String × List Nat)) (filename : String)
    (resp : Resp) : DLOutcome :=
  if (fs.lookup filename).isSome then
    ⟨fs, .ok (), false⟩
  else
    ⟨(download_file fs filename resp).1, (download_file fs filename resp).2, true⟩

/-- A concrete all-white 210x298 image, used to exercise the resize pass. -/
def whiteImg : Image :=
  ⟨210, 298, fun _ _ => 255⟩

/-! ## Evaluation lemmas for concrete confidence tokens -/

/-- `float("1.")` is exactly 1. -/
lemma pyFloat_one_dot : pyFloat "1." = some 1 := by
  have h : pyFloat "1." = some (((1 : ℕ) : ℚ) + ((0 : ℕ) : ℚ) / 10 ^ (0 : ℕ)) := rfl
  rw [h]; norm_num

/-- `float("0.9")` is 9/10. -/
lemma pyFloat_09 : pyFloat "0.9" = some (9/10) := by
  have h : pyFloat "0.9" = some (((0 : ℕ) : ℚ) + ((9 : ℕ) : ℚ) / 10 ^ (1 : ℕ)) := rfl
  rw [h]; norm_num

/-- `float("0.8")` is 4/5. -/
lemma pyFloat_08 : pyFloat "0.8" = some (4/5) := by
  have h : pyFloat "0.8" = some (((0 : ℕ) : ℚ) + ((8 : ℕ) : ℚ) / 10 ^ (1 : ℕ)) := rfl
  rw [h]; norm_num

/-- `float("0.95")` is 19/20. -/
lemma pyFloat_095 : pyFloat "0.95" = some (19/20) := by
  have h : pyFloat "0.95" = some (((0 : ℕ) : ℚ) + ((95 : ℕ) : ℚ) / 10 ^ (2 : ℕ)) := rfl
  rw [h]; norm_num

/-! ## C1 -/

/-- C1: the claim says a textual "None" confidence token becomes the NaN
sentinel and never a fatal error.  The code disagrees: the cleanup loop's
`fillna`/`replace` results are discarded (every assignment is applied to
the original `item`), `fillna` would not replace the string "None" anyway,
and `astype(float)` raises a fatal ValueError on it.  This theorem
evaluates the tabulation step at the failing input: a page containing the
token "None" is a fatal parse error, not NaN. -/
theorem c1_none_token_is_fatal : cleanPage [["None"]] = .error "None" := rfl

/-! ## C2 -/

/-- C2: the claim says the document strip draws exactly M unit cells for M
non-missing page means.  The code disagrees: the `PatchCollection` is
built from `range(0, last_item + 1)`, i.e. M + 1 rectangles, while only M
values are put in the color array.  Evaluated at a single non-missing page
mean (M = 1): two rectangles are drawn, with a single color value. -/
theorem c2_document_strip_rect_count :
    (documentStrip [some (1/2)]).nRects = 2 ∧ (documentStrip [some (1/2)]).values = [1/2] :=
  ⟨rfl, rfl⟩

/-! ## C3 -/

/-- C3: the literal token "1." parses to exactly 1.0, with no error: both
at the single-cell level and through the whole tabulation step.  (The
`replace("1.", "1.0")` line is dead code, but `float("1.")` is 1.0.) -/
theorem c3_one_dot_parses_to_one :
    parseCell (some "1.") = .ok (some 1) ∧ cleanPage [["1."]] = .ok [[some 1]] := by
  have h1 : parseCell (some "1.") = .ok (some 1) := by
    simp [parseCell, pyFloat_one_dot]
  refine ⟨h1, ?_⟩
  have hpad : padPage [["1."]] = [[some "1."]] := rfl
  simp [cleanPage, hpad, cleanRows, cleanRow, h1]

/-! ## C4 -/

/-- C4 counterexample: on a page with zero non-missing values the claim
says EVERY statistics field, including count, is the missing sentinel.
But describe() reports count 0.0 on an empty series: the count field is
`some 0`, not the missing value `none`. -/
theorem c4_counterexample :
    pageStatsOf [] = .ok ⟨some 0, none, none, none, none, none, none, none⟩ ∧
      some (0 : ℚ) ≠ (none : Option ℚ) :=
  ⟨rfl, by simp⟩

/-- C4 (amended): for every page with zero non-missing confidence values,
computing Page Statistics succeeds without an error; the count field is 0
(not missing, and in particular not wrongly nonzero), and mean, std and
all quartiles are the missing/NaN value. -/
theorem c4_empty_page_stats (page : List (List String)) (grid : List (List (Option ℚ)))
    (h : cleanPage page = .ok grid) (h0 : stackDrop grid = []) :
    pageStatsOf page = .ok ⟨some 0, none, none, none, none, none, none, none⟩ := by
  simp [pageStatsOf, h, h0, describeQ]

/-- C4 witness: the amended statement at the concrete zero-line page. -/
theorem c4_witness :
    pageStatsOf [] = .ok ⟨some 0, none, none, none, none, none, none, none⟩ :=
  c4_empty_page_stats [] [] rfl rfl

/-! ## C5 -/

/-- `cleanRow` on rows of padding cells is the identity. -/
lemma cleanRow_replicate_none (k : Nat) :
    cleanRow (List.replicate k none) = .ok (List.replicate k none) := by
  induction k with
  | zero => rfl
  | succ n ih => simp [List.replicate, cleanRow, parseCell, ih]

/-- Padding cells contribute nothing to the non-missing values. -/
lemma filterMap_id_replicate_none (k : Nat) :
    (List.replicate k (none : Option ℚ)).filterMap id = [] := by
  induction k with
  | zero => rfl
  | succ n ih => simp [List.replicate, ih]

/-- A successfully parsed token cell is always non-missing. -/
lemma parseCell_some_ok (s : String) (v : Option ℚ) (h : parseCell (some s) = .ok v) :
    ∃ q, v = some q := by
  simp only [parseCell] at h
  cases hp : pyFloat s with
  | none => rw [hp] at h; exact absurd h (by simp)
  | some q => rw [hp] at h; exact ⟨q, by injection h with h; exact h.symm⟩

/-- A padded row that parses successfully has exactly as many non-missing
values as the raw row has tokens, whatever the padding width. -/
lemma cleanRow_padded_count (row : List String) (k : Nat) (out : List (Option ℚ))
    (h : cleanRow (row.map some ++ List.replicate k none) = .ok out) :
    (out.filterMap id).length = row.length := by
  induction row generalizing out with
  | nil =>
      rw [List.map_nil, List.nil_append, cleanRow_replicate_none] at h
      injection h with h
      subst h
      simp [filterMap_id_replicate_none]
  | cons s rest ih =>
      rw [List.map_cons, List.cons_append] at h
      simp only [cleanRow] at h
      cases hps : parseCell (some s) with
      | error e => rw [hps] at h; exact absurd h (by simp)
      | ok v =>
          rw [hps] at h
          cases hrest : cleanRow (rest.map some ++ List.replicate k none) with
          | error e => rw [hrest] at h; exact absurd h (by simp)
          | ok vs =>
              rw [hrest] at h
              injection h with h
              subst h
              obtain ⟨q, hq⟩ := parseCell_some_ok s v hps
              subst hq
              simp [ih vs hrest]

/-- Over a whole padded page the stacked non-missing values are exactly as
many as the raw tokens. -/
lemma cleanRows_padded_count (rows : List (List String)) (w : Nat)
    (grid : List (List (Option ℚ)))
    (h : cleanRows (rows.map (fun r => r.map some ++ List.replicate (w - r.length) none))
          = .ok grid) :
    (stackDrop grid).length = (rows.map List.length).sum := by
  induction rows generalizing grid with
  | nil =>
      rw [List.map_nil] at h
      injection h with h
      subst h
      simp [stackDrop]
  | cons r rest ih =>
      rw [List.map_cons] at h
      simp only [cleanRows] at h
      cases h1 : cleanRow (r.map some ++ List.replicate (w - r.length) none) with
      | error e => rw [h1] at h; exact absurd h (by simp)
      | ok o =>
          rw [h1] at h
          cases h2 : cleanRows (rest.map (fun r => r.map some ++ List.replicate (w - r.length) none)) with
          | error e => rw [h2] at h; exact absurd h (by simp)
          | ok os =>
              rw [h2] at h
              injection h with h
              subst h
              have ha := cleanRow_padded_count r _ o h1
              have hb := ih os h2
              simp only [stackDrop] at hb
              simp only [stackDrop, List.flatten_cons, List.filterMap_append,
                List.length_append, List.map_cons, List.sum_cons, ha, hb]

/-- C5: for every page whose tokens all parse, the count field of its Page
Statistics equals the number of raw confidence tokens on the page - which
are exactly its non-missing values - independent of how many missing
padding cells the tabulation introduced to right-pad ragged lines. -/
theorem c5_count_ignores_padding (page : List (List String)) (grid : List (List (Option ℚ)))
    (h : cleanPage page = .ok grid) :
    (describeQ (stackDrop grid)).count = some (((page.map List.length).sum : ℕ) : ℚ) := by
  have hb : (stackDrop grid).length = (page.map List.length).sum := by
    apply cleanRows_padded_count page ((page.map List.length).foldr max 0) grid
    simpa [cleanPage, padPage] using h
  simp [describeQ, hb]

/-- C5 witness: a ragged page of three tokens over two lines is padded
with one missing cell, and its statistics count is still 3. -/
theorem c5_witness :
    (describeQ (stackDrop [[some (9/10 : ℚ), some (4/5)], [some (19/20), none]])).count
      = some (((3 : ℕ) : ℚ)) := by
  have h : cleanPage [["0.9", "0.8"], ["0.95"]]
      = .ok [[some (9/10), some (4/5)], [some (19/20), none]] := by
    have hpad : padPage [["0.9", "0.8"], ["0.95"]]
        = [[some "0.9", some "0.8"], [some "0.95", none]] := rfl
    simp [cleanPage, hpad, cleanRows, cleanRow, parseCell, pyFloat_09, pyFloat_08, pyFloat_095]
  exact c5_count_ignores_padding _ _ h

/-! ## C6 -/

/-- C6 counterexample: the claim says a missing value is rendered with the
colormap invalid-value treatment, distinguishable from the rendering of a
line without it.  But the render loop drops NaN before building the
figure: the figure for a line containing a missing value is IDENTICAL -
same rectangles, same color array, same axis limits - to the figure for
the same line with the missing value removed. -/
theorem c6_counterexample :
    stripeFig [some (9/10 : ℚ), none, some (4/5)] = stripeFig [some (9/10), some (4/5)] := rfl

/-- Dropping missing values is idempotent across re-wrapping. -/
lemma dropna_map_some (l : List (Option ℚ)) : dropna ((dropna l).map some) = dropna l := by
  induction l with
  | nil => rfl
  | cons c rest ih => cases c <;> simp_all [dropna]

/-- C6 (amended): missing values are not rendered at all - the line-strip
figure of any line equals the figure of that line with its missing values
removed.  They are dropped (`dropna()`) before rendering, so they are
never rendered as a valid color, but they also leave no distinguishable
trace in the strip. -/
theorem c6_missing_values_dropped (line : List (Option ℚ)) :
    stripeFig line = stripeFig ((dropna line).map some) := by
  unfold stripeFig
  rw [dropna_map_some]

/-! ## C7 -/

/-- C7: a page with zero lines produces no temp composite, so the move
step copies the predefined blank placeholder into that page's image slot,
and after the resize pass the image at that slot is exactly 210x298 (the
fixed page-image target resolution). -/
theorem c7_blank_placeholder_resized :
    moveResult none ([] : List (List (Option ℚ))) = (true, ImgFile.blank) ∧
    finalPageImage none [] = ImgFile.resized 210 298 ImgFile.blank ∧
    (finalPageImage none ([] : List (List (Option ℚ)))).width = 210 ∧
    (finalPageImage none ([] : List (List (Option ℚ)))).height = 298 :=
  ⟨rfl, rfl, rfl, rfl⟩

/-! ## C8 -/

/-- At equal source and destination size every destination cell overlaps
exactly its own source cell, with overlap length 1. -/
lemma overlap_same (s i k : Nat) (hs : 0 < s) :
    overlap s s i k = if k = i then 1 else 0 := by
  have hs' : (s : ℚ) ≠ 0 := Nat.cast_ne_zero.mpr hs.ne'
  unfold overlap
  rw [mul_div_assoc, div_self hs', mul_one, mul_div_assoc, div_self hs', mul_one]
  by_cases hk : k = i
  · subst hk
    simp
  · rw [if_neg hk]
    rcases Nat.lt_or_ge k i with hlt | hge
    · have h1 : (k : ℚ) + 1 ≤ (i : ℚ) := by exact_mod_cast hlt
      have h2 := min_le_right ((i : ℚ) + 1) ((k : ℚ) + 1)
      have h3 := le_max_left (i : ℚ) (k : ℚ)
      rw [max_eq_left (by linarith)]
    · have hgt : i < k := lt_of_le_of_ne hge (Ne.symm hk)
      have h1 : (i : ℚ) + 1 ≤ (k : ℚ) := by exact_mod_cast hgt
      have h2 := min_le_left ((i : ℚ) + 1) ((k : ℚ) + 1)
      have h3 := le_max_right (i : ℚ) (k : ℚ)
      rw [max_eq_left (by linarith)]

/-- The same-size overlap double sum collapses to the single source
pixel. -/
lemma sum_overlap_pick (s t : Nat) (f : Nat → Nat → ℚ) (i j : Nat)
    (hi : i < s) (hj : j < t) :
    (∑ k ∈ Finset.range s, ∑ l ∈ Finset.range t,
      overlap s s i k * overlap t t j l * f k l) = f i j := by
  have hs : 0 < s := lt_of_le_of_lt (Nat.zero_le i) hi
  have ht : 0 < t := lt_of_le_of_lt (Nat.zero_le j) hj
  rw [Finset.sum_eq_single i]
  · rw [Finset.sum_eq_single j]
    · rw [overlap_same s i i hs, overlap_same t j j ht]
      simp
    · intro l _ hlj
      rw [overlap_same t j l ht, if_neg hlj]
      ring
    · intro hj'
      exact absurd (Finset.mem_range.mpr hj) hj'
  · intro k _ hki
    rw [overlap_same s i k hs, if_neg hki]
    simp
  · intro hi'
    exact absurd (Finset.mem_range.mpr hi) hi'

/-- Rounding a natural channel value half-up returns it unchanged. -/
lemma qround_natCast (n : Nat) : qround (n : ℚ) = (n : ℤ) := by
  unfold qround
  have h1 : ((n : ℤ) : ℚ) ≤ (n : ℚ) + 1 / 2 := by push_cast; linarith
  have h2 : (n : ℚ) + 1 / 2 < (n : ℤ) + 1 := by push_cast; linarith
  exact Int.floor_eq_iff.mpr ⟨h1, h2⟩

/-- Clamping an in-range channel value returns it unchanged. -/
lemma clamp255_coe (n : Nat) (h : n ≤ 255) : clamp255 (n : ℤ) = n := by
  unfold clamp255
  rw [max_eq_right (Int.natCast_nonneg n), min_eq_right (by exact_mod_cast h)]
  exact Int.toNat_natCast n

/-- C8: box (area-averaging) resampling of an image that is already at the
fixed 210x298 target resolution to that same resolution is pixel-identical
to the original (channel values are in [0, 255]). -/
theorem c8_box_resize_idempotent (img : Image) (hw : img.width = 210) (hh : img.height = 298)
    (hp : ∀ x y, img.pix x y ≤ 255) :
    imgEq (boxResize img 210 298) img := by
  refine ⟨hw.symm, hh.symm, ?_⟩
  intro x y hx hy
  have hx' : x < 210 := hx
  have hy' : y < 298 := hy
  show clamp255 (qround (((210 : ℚ) * (298 : ℚ) / ((img.width : ℚ) * (img.height : ℚ))) *
      ∑ k ∈ Finset.range img.width, ∑ l ∈ Finset.range img.height,
        overlap img.width 210 x k * overlap img.height 298 y l * (img.pix k l : ℚ))) = img.pix x y
  rw [hw, hh]
  have hsum : (∑ k ∈ Finset.range 210, ∑ l ∈ Finset.range 298,
      overlap 210 210 x k * overlap 298 298 y l * (img.pix k l : ℚ)) = (img.pix x y : ℚ) :=
    sum_overlap_pick 210 298 (fun k l => (img.pix k l : ℚ)) x y hx' hy'
  rw [hsum]
  have hscale : ((210 : ℚ) * (298 : ℚ) / (((210 : ℕ) : ℚ) * ((298 : ℕ) : ℚ))) = 1 := by
    norm_num
  rw [hscale, one_mul, qround_natCast, clamp255_coe _ (hp x y)]

/-- C8 witness: resizing the all-white 210x298 image to 210x298 is
pixel-identical. -/
theorem c8_witness : imgEq (boxResize whiteImg 210 298) whiteImg :=
  c8_box_resize_idempotent whiteImg rfl rfl (fun _ _ => Nat.le_refl 255)

/-! ## C9 -/

/-- C9: when the request fails with a transport error, `download_file`
still leaves the destination file on disk (it was opened for writing
before the request), and a later `download_if_not_exists` for the same
path finds it present and returns successfully without touching the
network or the filesystem. -/
theorem c9_failed_download_leaves_file (fs : List (String × List Nat)) (f : String)
    (resp resp2 : Resp) (h : resp = .error ()) :
    (download_file fs f resp).2 = .error () ∧
    ((download_file fs f resp).1.lookup f).isSome = true ∧
    download_if_not_exists (download_file fs f resp).1 f resp2 =
      ⟨(download_file fs f resp).1, .ok (), false⟩ := by
  subst h
  refine ⟨rfl, ?_, ?_⟩
  · simp [download_file, List.lookup]
  · simp [download_if_not_exists, download_file, List.lookup]

/-- C9 witness: the failed-then-skipped scenario at a concrete path on an
empty filesystem. -/
theorem c9_witness :
    (download_file [] "a.xml" (.error ())).2 = .error () ∧
    ((download_file [] "a.xml" (.error ())).1.lookup "a.xml").isSome = true ∧
    download_if_not_exists (download_file [] "a.xml" (.error ())).1 "a.xml" (.ok []) =
      ⟨(download_file [] "a.xml" (.error ())).1, .ok (), false⟩ :=
  c9_failed_download_leaves_file [] "a.xml" (.error ()) (.ok []) rfl

/-! ## C10 -/

/-- C10: with no stale temp file for the slot, the blank-fallback branch
is taken exactly for a page with zero lines; every page with at least one
line - even a line that is entirely missing values - gets its composite
from the scratch area moved into the images directory, never the
placeholder. -/
theorem c10_blank_iff_no_lines (page : List (List (Option ℚ))) :
    ((moveResult none page).1 = true ↔ page = []) ∧
    (∀ c, compositeOf page = some c → moveResult none page = (false, c)) := by
  cases page with
  | nil =>
      exact ⟨by simp [moveResult, tempAfter, compositeOf], by simp [compositeOf]⟩
  | cons l rest =>
      refine ⟨by simp [moveResult, tempAfter, compositeOf], ?_⟩
      intro c hc
      simp [moveResult, tempAfter, hc]

/-- C10 witness: a page with one line whose values are all missing is not
replaced by the placeholder - its (empty) strip composite is moved. -/
theorem c10_witness :
    ((moveResult none [[(none : Option ℚ)]]).1 = true ↔
      [[(none : Option ℚ)]] = ([] : List (List (Option ℚ)))) ∧
    moveResult none [[(none : Option ℚ)]] = (false, ImgFile.strip (stripeFig [none])) :=
  ⟨(c10_blank_iff_no_lines _).1, (c10_blank_iff_no_lines _).2 _ rfl⟩

end Ocapy
